import Mathlib

/-!
Shallow embedding of `zeus2polaris_old.py` (jzamponi/zeus2polaris).

The program converts one frame of a ZEUS MHD simulation into the POLARIS
spherical-grid format.  Doubles are modelled as rationals (ℚ): every
operation the program performs on its values — moving them around,
comparing them exactly with `0.0`, multiplying by the constants `0.01`,
`1e-5` and `np.sqrt(4*np.pi)` — carries over; the single irrational
constant `np.sqrt(4*np.pi)` is threaded through the model as an explicit
parameter `sqrt4pi`.  File I/O is modelled by an environment mapping file
names to their contents (`none` = the file does not exist or cannot be
read).  Out-of-range indexing, which raises an exception in the source, is
modelled with default values; the theorems carry the length hypotheses
under which every index the program uses is in range.  The writes that
`zeus2polaris` performs on its output file are modelled as an event trace:
opening the file, each `write2grid` call, and closing the file.
-/

namespace Zeus2Polaris

/-- The two failure kinds of the program, following the spec's taxonomy:
`notFound` models the `IOError` raised by `read_data` for a missing or
unreadable file, and `invalidFormat` models the `ValueError` raised by
`zeus2polaris` for an unrecognized `grid_format`.  Each carries the
message string the source builds. -/
inductive Err where
  | notFound (msg : String)
  | invalidFormat (msg : String)
  deriving DecidableEq, Repr

/-- Length of the Python slice `a[m:-m]` of a sequence of length `n`:
for `m = 0` the stop index `-0` is `0`, so the slice is empty; for
`m ≥ 1` the slice holds `max 0 (n - 2*m)` elements (truncated
subtraction on `Nat`). -/
def trimmedLen (n m : Nat) : Nat := if m = 0 then 0 else n - 2 * m

/-- The Python slice `data[m:-m]` on a 1-D numpy array (line 89 of the
source: `data = data[trim_ghosts:-trim_ghosts]`). -/
def sliceTrim (data : List ℚ) (m : Nat) : List ℚ :=
  (data.drop m).take (trimmedLen data.length m)

/-- A 3-D numpy array: a shape together with an indexing function.
Only the indices `i < n1`, `j < n2`, `k < n3` are meaningful. -/
structure Arr3 where
  n1 : Nat
  n2 : Nat
  n3 : Nat
  val : Nat → Nat → Nat → ℚ

/-- Model of `data.reshape((d1,d2,d3), order='F')` (line 82): Fortran order, the
first axis varies fastest in memory, so `A[i,j,k] = flat[i + d1*j + d1*d2*k]`. -/
def reshapeF (data : List ℚ) (d1 d2 d3 : Nat) : Arr3 :=
  ⟨d1, d2, d3, fun i j k => data.getD (i + d1 * j + d1 * d2 * k) 0⟩

/-- Model of `data[m:-m, m:-m, m:-m]` (lines 84-86): slice `m` off both ends of
every axis, with Python's `[0:-0]`-is-empty behaviour at `m = 0`. -/
def trim3 (A : Arr3) (m : Nat) : Arr3 :=
  ⟨trimmedLen A.n1 m, trimmedLen A.n2 m, trimmedLen A.n3 m,
   fun i j k => A.val (m + i) (m + j) (m + k)⟩

/-- Model of `np.swapaxes(data, 1, 2)` (line 94): exchange the second and third axes. -/
def swapaxes12 (A : Arr3) : Arr3 :=
  ⟨A.n1, A.n3, A.n2, fun i j k => A.val i k j⟩

/-- Model of `np.ravel(data)` (line 96) on a 3-D array: C-order flattening, the
last axis varies fastest, so `out[(i*n2 + j)*n3 + k] = A[i,j,k]`. -/
def ravelC (A : Arr3) : List ℚ :=
  (List.range (A.n1 * A.n2 * A.n3)).map
    (fun p => A.val (p / (A.n2 * A.n3)) (p / A.n3 % A.n2) (p % A.n3))

/-- The pure core of `read_data` (lines 78-96), after the file's contents
have been obtained, for the `unshape := True` default every caller uses:
if no margin is given the buffer is returned as is (raveling a 1-D array
is the identity); with a margin and a 3-axis shape the buffer is reshaped
in Fortran order, trimmed on every axis, its axes 1 and 2 swapped
(`data.ndim > 1`), and flattened in C order; with a margin and no shape
the 1-D buffer is sliced. -/
def readDataCore (data : List ℚ) (shape : Option (Nat × Nat × Nat))
    (trim_ghosts : Option Nat) : List ℚ :=
  match trim_ghosts with
  | none => data
  | some m =>
    match shape with
    | some (d1, d2, d3) => ravelC (swapaxes12 (trim3 (reshapeF data d1 d2 d3) m))
    | none => sliceTrim data m

/-- The file system visible to the program: contents of each named file,
`none` when the file does not exist or cannot be read. -/
def Env : Type := String → Option (List ℚ)

/-- Model of `read_data` (lines 67-98): raise `IOError` with the function-name
prefix when the file is missing (lines 69-72), otherwise read the whole
file and apply the trimming/flattening core. -/
def read_data (env : Env) (filename : String) (shape : Option (Nat × Nat × Nat))
    (trim_ghosts : Option Nat) : Except Err (List ℚ) :=
  match env filename with
  | none => .error (.notFound ("[read_data] " ++ filename ++ " does not exists or cannot be read."))
  | some data => .ok (readDataCore data shape trim_ghosts)

/-- Constant `nghost = 3` (line 120). -/
def nghost : Nat := 3

/-- Constant `minvel = 1e-5` (line 156). -/
def minvel : ℚ := 1e-5

/-- Constant `id_grid = 30` (line 167). -/
def id_grid : Nat := 30

/-- Constant `IDs = [28, 29]` (line 168): gas mass density and dust mass density. -/
def IDs : List Nat := [28, 29]

/-- All intermediate arrays of `zeus2polaris` after loading and
preprocessing (lines 120-164): the six de-ghosted coordinate arrays and
the seven physical-quantity volumes, the velocities after zero
substitution and the magnetic fields after unit conversion. -/
structure Pre where
  r_e : List ℚ
  th_e : List ℚ
  ph_e : List ℚ
  r_c : List ℚ
  th_c : List ℚ
  ph_c : List ℚ
  rho : List ℚ
  Vr : List ℚ
  Vph : List ℚ
  Vth : List ℚ
  Br : List ℚ
  Bph : List ℚ
  Bth : List ℚ

/-- Lines 120-164 of `zeus2polaris`: read the six coordinate files with
the ghost margin, derive the padded shape `(n_r+2*nghost, n_ph+2*nghost,
n_th+2*nghost)` (line 136 — phi before theta), read the seven physical
quantities with that shape, replace exact-zero velocity values by
`minvel` (lines 157-159, `np.where(V != 0.0, V, minvel)`), and multiply
every magnetic-field component by `np.sqrt(4*np.pi)` (lines 162-164),
modelled by the parameter `sqrt4pi`. -/
def loadAndPreprocess (env : Env) (sqrt4pi : ℚ) (nframe : String) : Except Err Pre := do
  let r_e ← read_data env "z_x1ap" none (some nghost)
  let th_e ← read_data env "z_x2ap" none (some nghost)
  let ph_e ← read_data env "z_x3ap" none (some nghost)
  let r_c ← read_data env "z_x1bp" none (some nghost)
  let th_c ← read_data env "z_x2bp" none (some nghost)
  let ph_c ← read_data env "z_x3bp" none (some nghost)
  let n_r := r_e.length
  let n_th := th_e.length
  let n_ph := ph_e.length
  let shape := (n_r + 2 * nghost, n_ph + 2 * nghost, n_th + 2 * nghost)
  let rho ← read_data env ("o_d__" ++ nframe) (some shape) (some nghost)
  let Vr ← read_data env ("o_v1_" ++ nframe) (some shape) (some nghost)
  let Vph ← read_data env ("o_v2_" ++ nframe) (some shape) (some nghost)
  let Vth ← read_data env ("o_v3_" ++ nframe) (some shape) (some nghost)
  let Br ← read_data env ("o_b1_" ++ nframe) (some shape) (some nghost)
  let Bph ← read_data env ("o_b2_" ++ nframe) (some shape) (some nghost)
  let Bth ← read_data env ("o_b3_" ++ nframe) (some shape) (some nghost)
  let Vr := Vr.map (fun v => if v ≠ 0 then v else minvel)
  let Vph := Vph.map (fun v => if v ≠ 0 then v else minvel)
  let Vth := Vth.map (fun v => if v ≠ 0 then v else minvel)
  let Br := Br.map (fun b => b * sqrt4pi)
  let Bth := Bth.map (fun b => b * sqrt4pi)
  let Bph := Bph.map (fun b => b * sqrt4pi)
  pure { r_e := r_e, th_e := th_e, ph_e := ph_e, r_c := r_c, th_c := th_c, ph_c := ph_c,
         rho := rho, Vr := Vr, Vph := Vph, Vth := Vth, Br := Br, Bph := Bph, Bth := Bth }

/-- One field passed to `write2grid` (lines 102-110): an unsigned short
(`dtype "H"`), a double (`dtype "d"`), or the empty-string write used to
terminate an ascii line (`write2grid(file, 'ascii', "d", '', endl=True)`).
The flag records the `endl` argument, which only affects ascii output. -/
inductive WItem where
  | ushort (n : Nat) (endl : Bool)
  | dbl (x : ℚ) (endl : Bool)
  | blankEndl
  deriving DecidableEq, Repr

/-- An observable action of `zeus2polaris` on its output file. -/
inductive Event where
  | openF (name : String)
  | wr (it : WItem)
  | closeF
  deriving DecidableEq, Repr

/-- Model of `struct.pack("H", n)` for `n < 65536` on a little-endian host:
the two bytes of the unsigned short, least significant first. -/
def packH (n : Nat) : List Nat := [n % 256, n / 256 % 256]

/-- The ascii branch of `write2grid`: `str(var)` followed by a space, or
by a newline when `endl` is set. -/
def asciiTok (s : String) (endl : Bool) : String :=
  s ++ (if endl then "\n" else " ")

/-- The header items (lines 190-194): grid-type id, number of quantity
IDs, then each quantity ID, all as unsigned shorts with `endl=True`. -/
def headerItems : List WItem :=
  WItem.ushort id_grid true :: WItem.ushort IDs.length true ::
    IDs.map (fun q => WItem.ushort q true)

/-- The geometry record (lines 198-207): inner radius `r_e[0]`, outer
radius `read_data('z_x1ap')[-nghost]` (the still-ghosted source indexed
3 from its end), the three cell counts in r, phi, theta order, and the
three shape parameters `f_r = f_ph = f_th = 0`. -/
def geomItems (p : Pre) (x1apFull : List ℚ) : List WItem :=
  [WItem.dbl (p.r_e.getD 0 0) false,
   WItem.dbl (x1apFull.getD (x1apFull.length - nghost) 0) true,
   WItem.ushort p.r_e.length false,
   WItem.ushort p.ph_e.length false,
   WItem.ushort p.th_e.length true,
   WItem.dbl 0 true,
   WItem.dbl 0 true,
   WItem.dbl 0 true]

/-- One edge-sequence block (lines 210-223): every edge except the first
as a double without `endl`, followed in ascii mode only by the
empty-string newline write. -/
def edgeSeqItems (edges : List ℚ) (grid_format : String) : List WItem :=
  (edges.drop 1).map (fun x => WItem.dbl x false) ++
    (if grid_format = "ascii" then [WItem.blankEndl] else [])

/-- The per-cell payload (lines 226-229): for every `cell` in
`range(n_cells)`, the record `rho[cell]`, `0.01*rho[cell]`, the second
value carrying `endl=True`. -/
def cellItems (rho : List ℚ) (n_cells : Nat) : List WItem :=
  (List.range n_cells).flatMap (fun cell =>
    [WItem.dbl (rho.getD cell 0) false, WItem.dbl (0.01 * rho.getD cell 0) true])

/-- Every `write2grid` field of a successful run, in order: header,
geometry record, the three edge sequences (r, phi, theta), the per-cell
payload over `n_cells = n_r * n_th * n_ph` (line 135), and the all-zero
central-cell sentinel (lines 232-233). -/
def allItems (p : Pre) (x1apFull : List ℚ) (grid_format : String) : List WItem :=
  headerItems ++ geomItems p x1apFull ++
  edgeSeqItems p.r_e grid_format ++
  edgeSeqItems p.ph_e grid_format ++
  edgeSeqItems p.th_e grid_format ++
  cellItems p.rho (p.r_e.length * p.th_e.length * p.ph_e.length) ++
  [WItem.dbl 0 false, WItem.dbl 0 true]

/-- The trace after the output file has been opened.  Line 199 re-reads
`z_x1ap` without trimming; were that file to have become unreadable the
run would abort there, after the header and the inner radius have been
written — with a pure environment this branch is unreachable from
`zeus2polaris`, which has already read `z_x1ap` successfully. -/
def mkTrace (env : Env) (p : Pre) (fname : String) (grid_format : String) :
    List Event × Option Err :=
  match env "z_x1ap" with
  | none =>
      (Event.openF fname :: (headerItems.map Event.wr) ++
        [Event.wr (WItem.dbl (p.r_e.getD 0 0) false)],
       some (.notFound "[read_data] z_x1ap does not exists or cannot be read."))
  | some x1apFull =>
      (Event.openF fname :: ((allItems p x1apFull grid_format).map Event.wr) ++
        [Event.closeF], none)

/-- Lines 174-235: select the output file name by format (`.dat` for
binary, `.txt` for ascii), open it and write the whole artifact; any
other `grid_format` raises `ValueError` before any file is opened. -/
def serializeEvents (env : Env) (p : Pre) (output_grid : String)
    (grid_format : String) : List Event × Option Err :=
  if grid_format = "binary" then
    mkTrace env p (output_grid ++ ".dat") grid_format
  else if grid_format = "ascii" then
    mkTrace env p (output_grid ++ ".txt") grid_format
  else
    ([], some (.invalidFormat "[zeus2polaris] grid_format must be either \"binary\" or \"ascii\"."))

/-- Model of `zeus2polaris` (lines 113-239): load and preprocess all inputs, then
serialize.  The result is the event trace on the output file together
with the error, if any, that aborted the run. -/
def zeus2polaris (env : Env) (sqrt4pi : ℚ) (nframe : String)
    (output_grid : String) (grid_format : String) : List Event × Option Err :=
  match loadAndPreprocess env sqrt4pi nframe with
  | .error e => ([], some e)
  | .ok p => serializeEvents env p output_grid grid_format

/-- An environment built from an association list of file contents. -/
def mkEnv (l : List (String × List ℚ)) : Env :=
  fun f => (l.find? (fun p => p.1 = f)).map (fun p => p.2)

/-- The padded shape (line 136) expressed from the raw coordinate-file
contents: `A`, `B`, `C` are the contents of `z_x1ap`, `z_x2ap`, `z_x3ap`. -/
def paddedShape (A B C : List ℚ) : Nat × Nat × Nat :=
  ((sliceTrim A nghost).length + 2 * nghost,
   (sliceTrim C nghost).length + 2 * nghost,
   (sliceTrim B nghost).length + 2 * nghost)

/-- The `Pre` record `loadAndPreprocess` produces when all thirteen input
files are present, written out explicitly: `A B C` are the contents of
the edge files `z_x1ap z_x2ap z_x3ap`, `A2 B2 C2` of the center files,
`D` of the density file, `V1 V2 V3` of the velocity files and `W1 W2 W3`
of the magnetic-field files. -/
def preOf (sqrt4pi : ℚ) (A B C A2 B2 C2 D V1 V2 V3 W1 W2 W3 : List ℚ) : Pre :=
  { r_e := sliceTrim A nghost, th_e := sliceTrim B nghost, ph_e := sliceTrim C nghost,
    r_c := sliceTrim A2 nghost, th_c := sliceTrim B2 nghost, ph_c := sliceTrim C2 nghost,
    rho := readDataCore D (some (paddedShape A B C)) (some nghost),
    Vr := (readDataCore V1 (some (paddedShape A B C)) (some nghost)).map
      (fun v => if v ≠ 0 then v else minvel),
    Vph := (readDataCore V2 (some (paddedShape A B C)) (some nghost)).map
      (fun v => if v ≠ 0 then v else minvel),
    Vth := (readDataCore V3 (some (paddedShape A B C)) (some nghost)).map
      (fun v => if v ≠ 0 then v else minvel),
    Br := (readDataCore W1 (some (paddedShape A B C)) (some nghost)).map
      (fun b => b * sqrt4pi),
    Bph := (readDataCore W2 (some (paddedShape A B C)) (some nghost)).map
      (fun b => b * sqrt4pi),
    Bth := (readDataCore W3 (some (paddedShape A B C)) (some nghost)).map
      (fun b => b * sqrt4pi) }

/-- When all thirteen input files are present, `loadAndPreprocess`
succeeds and produces exactly `preOf`. -/
theorem loadAndPreprocess_eq (env : Env) (sqrt4pi : ℚ) (nframe : String)
    (A B C A2 B2 C2 D V1 V2 V3 W1 W2 W3 : List ℚ)
    (h1 : env "z_x1ap" = some A) (h2 : env "z_x2ap" = some B) (h3 : env "z_x3ap" = some C)
    (h4 : env "z_x1bp" = some A2) (h5 : env "z_x2bp" = some B2) (h6 : env "z_x3bp" = some C2)
    (h7 : env ("o_d__" ++ nframe) = some D)
    (h8 : env ("o_v1_" ++ nframe) = some V1) (h9 : env ("o_v2_" ++ nframe) = some V2)
    (h10 : env ("o_v3_" ++ nframe) = some V3)
    (h11 : env ("o_b1_" ++ nframe) = some W1) (h12 : env ("o_b2_" ++ nframe) = some W2)
    (h13 : env ("o_b3_" ++ nframe) = some W3) :
    loadAndPreprocess env sqrt4pi nframe =
      .ok (preOf sqrt4pi A B C A2 B2 C2 D V1 V2 V3 W1 W2 W3) := by
  simp [loadAndPreprocess, read_data, h1, h2, h3, h4, h5, h6, h7, h8, h9, h10, h11, h12, h13,
    preOf, paddedShape, readDataCore, Bind.bind, Except.bind, Pure.pure, Except.pure]

/-- Reading an element of a mapped range below its length. -/
theorem getD_map_range (f : Nat → ℚ) (n p : Nat) (d : ℚ) (hp : p < n) :
    ((List.range n).map f).getD p d = f p := by
  rw [List.getD_eq_getElem _ d (by simpa using hp)]
  simp

/-- Flattening a 3-D array yields one value per index triple. -/
theorem ravelC_length (A : Arr3) : (ravelC A).length = A.n1 * A.n2 * A.n3 := by
  simp [ravelC]

/-- For a positive margin, the Python slice `data[m:-m]` has
`data.length - 2*m` elements (truncated subtraction). -/
theorem sliceTrim_length (data : List ℚ) (m : Nat) (hm : 1 ≤ m) :
    (sliceTrim data m).length = data.length - 2 * m := by
  have hm0 : m ≠ 0 := by omega
  simp [sliceTrim, trimmedLen, hm0]
  omega

/-- For a positive margin, element `i` of the slice `data[m:-m]` is
element `m + i` of the original. -/
theorem sliceTrim_getD (data : List ℚ) (m i : Nat) (hm : 1 ≤ m)
    (hi : i < data.length - 2 * m) :
    (sliceTrim data m).getD i 0 = data.getD (m + i) 0 := by
  have hlen := sliceTrim_length data m hm
  rw [List.getD_eq_getElem _ _ (by omega), List.getD_eq_getElem _ _ (by omega)]
  simp [sliceTrim]

/-- Mixed-radix bound: the linear index of an in-range triple is in range. -/
theorem mixedRadix_lt (e1 e3 e2 i a b : Nat) (hi : i < e1) (ha : a < e3) (hb : b < e2) :
    i * (e3 * e2) + a * e2 + b < e1 * e3 * e2 := by
  calc i * (e3 * e2) + a * e2 + b
      < i * (e3 * e2) + a * e2 + e2 := by omega
    _ = i * (e3 * e2) + (a + 1) * e2 := by ring
    _ ≤ i * (e3 * e2) + e3 * e2 := by
        have : (a + 1) * e2 ≤ e3 * e2 := Nat.mul_le_mul_right e2 (by omega)
        omega
    _ = (i + 1) * (e3 * e2) := by ring
    _ ≤ e1 * (e3 * e2) := Nat.mul_le_mul_right (e3 * e2) (by omega)
    _ = e1 * e3 * e2 := by ring

/-- Recovering the index triple from its linear C-order index. -/
theorem decodeIdx (e2 e3 i a b : Nat) (ha : a < e3) (hb : b < e2) :
    (i * (e3 * e2) + a * e2 + b) / (e3 * e2) = i ∧
    (i * (e3 * e2) + a * e2 + b) / e2 % e3 = a ∧
    (i * (e3 * e2) + a * e2 + b) % e2 = b := by
  have he2 : 0 < e2 := by omega
  have he3 : 0 < e3 := by omega
  have hrw : i * (e3 * e2) + a * e2 + b = b + e2 * (a + e3 * i) := by ring
  have hdiv : (i * (e3 * e2) + a * e2 + b) / e2 = a + e3 * i := by
    rw [hrw, Nat.add_mul_div_left _ _ he2, Nat.div_eq_of_lt hb, Nat.zero_add]
  refine ⟨?_, ?_, ?_⟩
  · rw [hrw, mul_comm e3 e2, ← Nat.div_div_eq_div_mul,
      Nat.add_mul_div_left _ _ he2, Nat.div_eq_of_lt hb, Nat.zero_add,
      Nat.add_mul_div_left _ _ he3, Nat.div_eq_of_lt ha, Nat.zero_add]
  · rw [hdiv, Nat.add_mul_mod_self_left, Nat.mod_eq_of_lt ha]
  · rw [hrw, Nat.add_mul_mod_self_left, Nat.mod_eq_of_lt hb]

/-- The length of the reshape-trim-swap-flatten pipeline of `read_data`
for a positive margin: the product of the trimmed axis extents. -/
theorem readDataCore3_length (data : List ℚ) (d1 d2 d3 m : Nat) (hm : 1 ≤ m) :
    (readDataCore data (some (d1, d2, d3)) (some m)).length
      = (d1 - 2 * m) * (d2 - 2 * m) * (d3 - 2 * m) := by
  have hm0 : m ≠ 0 := by omega
  simp [readDataCore, ravelC_length, swapaxes12, trim3, reshapeF, trimmedLen, hm0]
  ring

/-- Elementwise characterization of the reshape-trim-swap-flatten
pipeline of `read_data`: the output value at the C-order position of the
triple `(i, a, b)` of the swapped trimmed array is the input value at
the Fortran-order position of `(m+i, m+b, m+a)` in the padded array —
axes 1 and 2 exchanged by the `np.swapaxes(data, 1, 2)` step. -/
theorem readDataCore3_getD (data : List ℚ) (d1 d2 d3 m i a b : Nat) (hm : 1 ≤ m)
    (hi : i < d1 - 2 * m) (ha : a < d3 - 2 * m) (hb : b < d2 - 2 * m) :
    (readDataCore data (some (d1, d2, d3)) (some m)).getD
        (i * ((d3 - 2 * m) * (d2 - 2 * m)) + a * (d2 - 2 * m) + b) 0
      = data.getD (m + i + d1 * (m + b) + d1 * d2 * (m + a)) 0 := by
  have hm0 : m ≠ 0 := by omega
  have hp := mixedRadix_lt (d1 - 2 * m) (d3 - 2 * m) (d2 - 2 * m) i a b hi ha hb
  obtain ⟨hq1, hq2, hq3⟩ := decodeIdx (d2 - 2 * m) (d3 - 2 * m) i a b ha hb
  simp only [readDataCore, ravelC, swapaxes12, trim3, reshapeF, trimmedLen, if_neg hm0]
  rw [getD_map_range _ _ _ _ hp, hq1, hq2, hq3]

/-- When all thirteen input files are present and the format is one of
the two recognized modes, the run succeeds and its trace is: open the
output file (suffix by format), write every field of `allItems`, close. -/
theorem zeus2polaris_eq (env : Env) (sqrt4pi : ℚ) (nframe output_grid grid_format : String)
    (A B C A2 B2 C2 D V1 V2 V3 W1 W2 W3 : List ℚ)
    (hfmt : grid_format = "binary" ∨ grid_format = "ascii")
    (h1 : env "z_x1ap" = some A) (h2 : env "z_x2ap" = some B) (h3 : env "z_x3ap" = some C)
    (h4 : env "z_x1bp" = some A2) (h5 : env "z_x2bp" = some B2) (h6 : env "z_x3bp" = some C2)
    (h7 : env ("o_d__" ++ nframe) = some D)
    (h8 : env ("o_v1_" ++ nframe) = some V1) (h9 : env ("o_v2_" ++ nframe) = some V2)
    (h10 : env ("o_v3_" ++ nframe) = some V3)
    (h11 : env ("o_b1_" ++ nframe) = some W1) (h12 : env ("o_b2_" ++ nframe) = some W2)
    (h13 : env ("o_b3_" ++ nframe) = some W3) :
    zeus2polaris env sqrt4pi nframe output_grid grid_format =
      (Event.openF (output_grid ++ if grid_format = "binary" then ".dat" else ".txt") ::
        ((allItems (preOf sqrt4pi A B C A2 B2 C2 D V1 V2 V3 W1 W2 W3) A grid_format).map
          Event.wr) ++ [Event.closeF], none) := by
  have hl := loadAndPreprocess_eq env sqrt4pi nframe A B C A2 B2 C2 D V1 V2 V3 W1 W2 W3
    h1 h2 h3 h4 h5 h6 h7 h8 h9 h10 h11 h12 h13
  rcases hfmt with h | h <;> subst h <;>
    simp [zeus2polaris, hl, serializeEvents, mkTrace, h1]

/-- Reading an element of a mapped list below its length. -/
theorem getD_map_lt (f : ℚ → ℚ) (l : List ℚ) (i : Nat) (hi : i < l.length) (d : ℚ) :
    (l.map f).getD i d = f (l.getD i d) := by
  rw [List.getD_eq_getElem _ _ (by simpa using hi), List.getD_eq_getElem _ _ hi]
  simp

/-- Scaling a list elementwise, read through `getD` with default `0`:
the default is preserved because `0 * c = 0`. -/
theorem getD_map_mul (l : List ℚ) (c : ℚ) (i : Nat) :
    (l.map (fun x => x * c)).getD i 0 = l.getD i 0 * c := by
  by_cases hi : i < l.length
  · rw [getD_map_lt _ _ _ hi]
  · rw [List.getD_eq_default _ _ (by simpa using Nat.le_of_not_lt hi),
      List.getD_eq_default _ _ (Nat.le_of_not_lt hi), zero_mul]

/-- Facts about the zero-substitution map `np.where(v != 0.0, v, minvel)`:
the result has no zero entries, non-zero entries are unchanged, and zero
entries become `minvel`. -/
theorem map_substZero_facts (l : List ℚ) :
    (∀ x ∈ l.map (fun v => if v ≠ 0 then v else minvel), x ≠ 0) ∧
    (∀ i, i < l.length →
      (l.getD i 0 ≠ 0 →
        (l.map (fun v => if v ≠ 0 then v else minvel)).getD i 0 = l.getD i 0) ∧
      (l.getD i 0 = 0 →
        (l.map (fun v => if v ≠ 0 then v else minvel)).getD i 0 = minvel)) := by
  have hmv : minvel ≠ 0 := by norm_num [minvel]
  constructor
  · intro x hx
    obtain ⟨v, hv, rfl⟩ := List.mem_map.mp hx
    by_cases h : v = 0
    · simp [h, hmv]
    · simp [h]
  · intro i hi
    rw [getD_map_lt _ _ _ hi]
    exact ⟨fun h => if_pos h, fun h => if_neg (fun hc => hc h)⟩

/-- The all-zero environment: no file exists. -/
def envEmpty : Env := mkEnv []

/-- Counterexample input for C8: a one-element file. -/
def envC8 : Env := mkEnv [("f", [5])]

/-- Witness input for C8: a three-element file. -/
def envC8W : Env := mkEnv [("g", [1, 2, 3])]

/-- The spec's end-to-end scenario: margin 3, `2*3+4 = 10` edge values
per axis (4 physical cells per axis), and quantity files of the matching
padded size `10*10*10 = 1000`. -/
def edges10 : List ℚ := [0, 1, 2, 3, 4, 5, 6, 7, 8, 9]

/-- A quantity file of the padded size, filled with ones. -/
def vol1000 : List ℚ := List.replicate 1000 1

/-- A second quantity filling, used to vary the velocity and
magnetic-field files. -/
def vol1000b : List ℚ := List.replicate 1000 2

/-- End-to-end scenario environment for frame `00001`. -/
def envE : Env := mkEnv
  [("z_x1ap", edges10), ("z_x2ap", edges10), ("z_x3ap", edges10),
   ("z_x1bp", edges10), ("z_x2bp", edges10), ("z_x3bp", edges10),
   ("o_d__00001", vol1000), ("o_v1_00001", vol1000), ("o_v2_00001", vol1000),
   ("o_v3_00001", vol1000), ("o_b1_00001", vol1000), ("o_b2_00001", vol1000),
   ("o_b3_00001", vol1000)]

/-- The scenario environment with different velocity and magnetic-field
file contents but the same coordinate and density files. -/
def envE2 : Env := mkEnv
  [("z_x1ap", edges10), ("z_x2ap", edges10), ("z_x3ap", edges10),
   ("z_x1bp", edges10), ("z_x2bp", edges10), ("z_x3bp", edges10),
   ("o_d__00001", vol1000), ("o_v1_00001", vol1000b), ("o_v2_00001", vol1000b),
   ("o_v3_00001", vol1000b), ("o_b1_00001", vol1000b), ("o_b2_00001", vol1000b),
   ("o_b3_00001", vol1000b)]

/-- C8, counterexample: the claim quantifies over all margin values `m`
with `n > 2*m`.  At `m = 0`, `n = 1`, the source slices `data[0:-0]`,
which in Python is empty, so `read_data` returns an empty array instead
of the full one-element sub-sequence `[0:1]` the claim predicts. -/
theorem C8_cex_margin_zero :
    envC8 "f" = some [5] ∧
    read_data envC8 "f" none (some 0) = .ok [] ∧
    read_data envC8 "f" none (some 0) ≠ .ok [(5 : ℚ)] := by
  have h : read_data envC8 "f" none (some 0) = .ok [] := rfl
  refine ⟨rfl, h, ?_⟩
  rw [h]
  intro hc
  exact absurd (Except.ok.inj hc) (by decide)

/-- C8 (amended to positive margins): for every margin `m ≥ 1` and every
axis size `n > 2*m`, `read_data` with margin `m` and no shape on a 1-D
buffer of length `n` returns exactly `n - 2*m` elements equal to the
original sub-sequence `[m : n-m]`. -/
theorem C8_trim_1d (env : Env) (filename : String) (data : List ℚ) (m : Nat)
    (henv : env filename = some data) (hm : 1 ≤ m) (hn : 2 * m < data.length) :
    ∃ out, read_data env filename none (some m) = .ok out ∧
      out.length = data.length - 2 * m ∧
      ∀ i, i < data.length - 2 * m → out.getD i 0 = data.getD (m + i) 0 := by
  refine ⟨sliceTrim data m, ?_, sliceTrim_length data m hm,
    fun i hi => sliceTrim_getD data m i hm hi⟩
  simp [read_data, henv, readDataCore]

/-- C8, the amended theorem at the concrete input `[1, 2, 3]`, `m = 1`. -/
theorem C8_trim_1d_witness :
    ∃ out, read_data envC8W "g" none (some 1) = .ok out ∧
      out.length = ([(1 : ℚ), 2, 3] : List ℚ).length - 2 * 1 ∧
      ∀ i, i < ([(1 : ℚ), 2, 3] : List ℚ).length - 2 * 1 →
        out.getD i 0 = ([(1 : ℚ), 2, 3] : List ℚ).getD (1 + i) 0 :=
  C8_trim_1d envC8W "g" [1, 2, 3] 1 rfl (by decide) (by decide)

/-- C10: `read_data` fails with the not-found error exactly when the
path does not resolve to a readable file, succeeds in opening otherwise,
and any not-found message it raises is prefixed by the failing
operation's name `[read_data] `. -/
theorem C10_read_data_notfound (env : Env) (filename : String)
    (shape : Option (Nat × Nat × Nat)) (trim_ghosts : Option Nat) :
    (env filename = none →
      read_data env filename shape trim_ghosts =
        .error (.notFound ("[read_data] " ++ filename ++ " does not exists or cannot be read."))) ∧
    (∀ data, env filename = some data →
      read_data env filename shape trim_ghosts = .ok (readDataCore data shape trim_ghosts)) ∧
    (∀ msg, read_data env filename shape trim_ghosts = .error (.notFound msg) →
      ∃ rest, msg = "[read_data] " ++ rest) := by
  refine ⟨fun h => by simp [read_data, h], fun data h => by simp [read_data, h],
    fun msg h => ?_⟩
  cases he : env filename with
  | none =>
      simp only [read_data, he] at h
      exact ⟨filename ++ " does not exists or cannot be read.", by
        have := (Except.error.inj h)
        have hmsg := (Err.notFound.inj this).symm
        rw [hmsg, String.append_assoc]⟩
  | some d => simp [read_data, he] at h

/-- C10 at a concrete input: the empty environment has no file `data0`,
and `read_data` reports it with the prefixed message. -/
theorem C10_read_data_notfound_witness :
    read_data envEmpty "data0" none none =
      .error (.notFound ("[read_data] " ++ "data0" ++ " does not exists or cannot be read.")) :=
  (C10_read_data_notfound envEmpty "data0" none none).1 rfl

/-- C6: each of the three velocity volumes is transformed elementwise by
`np.where(v != 0.0, v, minvel)` with `minvel = 1e-5`: exact zeros become
the positive floor `minvel`, non-zero values are unchanged, and the
resulting sequences contain no zero entries. -/
theorem C6_velocity_floor (env : Env) (sqrt4pi : ℚ) (nframe : String)
    (A B C A2 B2 C2 D V1 V2 V3 W1 W2 W3 : List ℚ)
    (h1 : env "z_x1ap" = some A) (h2 : env "z_x2ap" = some B) (h3 : env "z_x3ap" = some C)
    (h4 : env "z_x1bp" = some A2) (h5 : env "z_x2bp" = some B2) (h6 : env "z_x3bp" = some C2)
    (h7 : env ("o_d__" ++ nframe) = some D)
    (h8 : env ("o_v1_" ++ nframe) = some V1) (h9 : env ("o_v2_" ++ nframe) = some V2)
    (h10 : env ("o_v3_" ++ nframe) = some V3)
    (h11 : env ("o_b1_" ++ nframe) = some W1) (h12 : env ("o_b2_" ++ nframe) = some W2)
    (h13 : env ("o_b3_" ++ nframe) = some W3) :
    ∃ p, loadAndPreprocess env sqrt4pi nframe = .ok p ∧
      minvel = 1e-5 ∧ 0 < minvel ∧
      p.Vr = (readDataCore V1 (some (paddedShape A B C)) (some nghost)).map
        (fun v => if v ≠ 0 then v else minvel) ∧
      p.Vph = (readDataCore V2 (some (paddedShape A B C)) (some nghost)).map
        (fun v => if v ≠ 0 then v else minvel) ∧
      p.Vth = (readDataCore V3 (some (paddedShape A B C)) (some nghost)).map
        (fun v => if v ≠ 0 then v else minvel) ∧
      (∀ x ∈ p.Vr, x ≠ 0) ∧ (∀ x ∈ p.Vph, x ≠ 0) ∧ (∀ x ∈ p.Vth, x ≠ 0) ∧
      (∀ l : List ℚ, ∀ i, i < l.length →
        (l.getD i 0 ≠ 0 →
          (l.map (fun v => if v ≠ 0 then v else minvel)).getD i 0 = l.getD i 0) ∧
        (l.getD i 0 = 0 →
          (l.map (fun v => if v ≠ 0 then v else minvel)).getD i 0 = minvel)) := by
  refine ⟨preOf sqrt4pi A B C A2 B2 C2 D V1 V2 V3 W1 W2 W3,
    loadAndPreprocess_eq env sqrt4pi nframe A B C A2 B2 C2 D V1 V2 V3 W1 W2 W3
      h1 h2 h3 h4 h5 h6 h7 h8 h9 h10 h11 h12 h13,
    rfl, by norm_num [minvel], rfl, rfl, rfl,
    (map_substZero_facts _).1, (map_substZero_facts _).1, (map_substZero_facts _).1,
    fun l => (map_substZero_facts l).2⟩

/-- C6 at the end-to-end scenario input. -/
theorem C6_velocity_floor_witness :
    ∃ p, loadAndPreprocess envE 1 "00001" = .ok p ∧ (∀ x ∈ p.Vr, x ≠ 0) := by
  obtain ⟨p, hp, _, _, _, _, _, hVr, _⟩ := C6_velocity_floor envE 1 "00001"
    edges10 edges10 edges10 edges10 edges10 edges10 vol1000 vol1000 vol1000 vol1000
    vol1000 vol1000 vol1000 rfl rfl rfl rfl rfl rfl rfl rfl rfl rfl rfl rfl rfl
  exact ⟨p, hp, hVr⟩

/-- C7: each of the three magnetic-field volumes is multiplied
elementwise by the constant `np.sqrt(4*np.pi)` — the parameter
`sqrt4pi` — and nothing else is applied to it: the stored array is
exactly the elementwise product of the loaded array with the constant. -/
theorem C7_bfield_gauss (env : Env) (sqrt4pi : ℚ) (nframe : String)
    (A B C A2 B2 C2 D V1 V2 V3 W1 W2 W3 : List ℚ)
    (h1 : env "z_x1ap" = some A) (h2 : env "z_x2ap" = some B) (h3 : env "z_x3ap" = some C)
    (h4 : env "z_x1bp" = some A2) (h5 : env "z_x2bp" = some B2) (h6 : env "z_x3bp" = some C2)
    (h7 : env ("o_d__" ++ nframe) = some D)
    (h8 : env ("o_v1_" ++ nframe) = some V1) (h9 : env ("o_v2_" ++ nframe) = some V2)
    (h10 : env ("o_v3_" ++ nframe) = some V3)
    (h11 : env ("o_b1_" ++ nframe) = some W1) (h12 : env ("o_b2_" ++ nframe) = some W2)
    (h13 : env ("o_b3_" ++ nframe) = some W3) :
    ∃ p, loadAndPreprocess env sqrt4pi nframe = .ok p ∧
      p.Br = (readDataCore W1 (some (paddedShape A B C)) (some nghost)).map
        (fun x => x * sqrt4pi) ∧
      p.Bph = (readDataCore W2 (some (paddedShape A B C)) (some nghost)).map
        (fun x => x * sqrt4pi) ∧
      p.Bth = (readDataCore W3 (some (paddedShape A B C)) (some nghost)).map
        (fun x => x * sqrt4pi) ∧
      (∀ i, p.Br.getD i 0 =
        (readDataCore W1 (some (paddedShape A B C)) (some nghost)).getD i 0 * sqrt4pi) ∧
      (∀ i, p.Bph.getD i 0 =
        (readDataCore W2 (some (paddedShape A B C)) (some nghost)).getD i 0 * sqrt4pi) ∧
      (∀ i, p.Bth.getD i 0 =
        (readDataCore W3 (some (paddedShape A B C)) (some nghost)).getD i 0 * sqrt4pi) := by
  refine ⟨preOf sqrt4pi A B C A2 B2 C2 D V1 V2 V3 W1 W2 W3,
    loadAndPreprocess_eq env sqrt4pi nframe A B C A2 B2 C2 D V1 V2 V3 W1 W2 W3
      h1 h2 h3 h4 h5 h6 h7 h8 h9 h10 h11 h12 h13,
    rfl, rfl, rfl,
    fun i => getD_map_mul _ _ i, fun i => getD_map_mul _ _ i, fun i => getD_map_mul _ _ i⟩

/-- C7 at the end-to-end scenario input, with `sqrt4pi` instantiated to
a concrete rational. -/
theorem C7_bfield_gauss_witness :
    ∃ p, loadAndPreprocess envE 7 "00001" = .ok p ∧
      p.Br = (readDataCore vol1000 (some (paddedShape edges10 edges10 edges10))
        (some nghost)).map (fun x => x * 7) := by
  obtain ⟨p, hp, hBr, _⟩ := C7_bfield_gauss envE 7 "00001"
    edges10 edges10 edges10 edges10 edges10 edges10 vol1000 vol1000 vol1000 vol1000
    vol1000 vol1000 vol1000 rfl rfl rfl rfl rfl rfl rfl rfl rfl rfl rfl rfl rfl
  exact ⟨p, hp, hBr⟩

/-- C9: when the requested `grid_format` is neither `binary` nor `ascii`
(and the inputs load, which the source does first), `zeus2polaris` fails
with the invalid-format error carrying the prefixed message, and its
trace is empty — no output file is opened or created on this path. -/
theorem C9_invalid_format (env : Env) (sqrt4pi : ℚ) (nframe output_grid grid_format : String)
    (A B C A2 B2 C2 D V1 V2 V3 W1 W2 W3 : List ℚ)
    (hfb : grid_format ≠ "binary") (hfa : grid_format ≠ "ascii")
    (h1 : env "z_x1ap" = some A) (h2 : env "z_x2ap" = some B) (h3 : env "z_x3ap" = some C)
    (h4 : env "z_x1bp" = some A2) (h5 : env "z_x2bp" = some B2) (h6 : env "z_x3bp" = some C2)
    (h7 : env ("o_d__" ++ nframe) = some D)
    (h8 : env ("o_v1_" ++ nframe) = some V1) (h9 : env ("o_v2_" ++ nframe) = some V2)
    (h10 : env ("o_v3_" ++ nframe) = some V3)
    (h11 : env ("o_b1_" ++ nframe) = some W1) (h12 : env ("o_b2_" ++ nframe) = some W2)
    (h13 : env ("o_b3_" ++ nframe) = some W3) :
    zeus2polaris env sqrt4pi nframe output_grid grid_format =
      ([], some (.invalidFormat
        "[zeus2polaris] grid_format must be either \"binary\" or \"ascii\".")) ∧
    ∀ name, Event.openF name ∉ (zeus2polaris env sqrt4pi nframe output_grid grid_format).1 := by
  have hl := loadAndPreprocess_eq env sqrt4pi nframe A B C A2 B2 C2 D V1 V2 V3 W1 W2 W3
    h1 h2 h3 h4 h5 h6 h7 h8 h9 h10 h11 h12 h13
  have hz : zeus2polaris env sqrt4pi nframe output_grid grid_format =
      ([], some (.invalidFormat
        "[zeus2polaris] grid_format must be either \"binary\" or \"ascii\".")) := by
    simp [zeus2polaris, hl, serializeEvents, hfb, hfa]
  exact ⟨hz, fun name => by rw [hz]; simp⟩

/-- C9 at a concrete input: format `text` is rejected with an empty trace. -/
theorem C9_invalid_format_witness :
    zeus2polaris envE 1 "00001" "out" "text" =
      ([], some (.invalidFormat
        "[zeus2polaris] grid_format must be either \"binary\" or \"ascii\".")) :=
  (C9_invalid_format envE 1 "00001" "out" "text"
    edges10 edges10 edges10 edges10 edges10 edges10 vol1000 vol1000 vol1000 vol1000
    vol1000 vol1000 vol1000 (by decide) (by decide)
    rfl rfl rfl rfl rfl rfl rfl rfl rfl rfl rfl rfl rfl).1

/-- C2: with a positive margin `m` and a 3-axis shape, `read_data`
reshapes in Fortran order, trims `m` off both ends of every axis, swaps
axes 1 and 2, and flattens in C order — so the output value at the
C-order position of `(i, a, b)` is the input value at the Fortran-order
position of `(m+i, m+b, m+a)` — and `zeus2polaris` reads every
physical-quantity volume with the padded shape
`(n_r + 2*nghost, n_ph + 2*nghost, n_th + 2*nghost)`, phi before theta. -/
theorem C2_reshape_trim_swap (data : List ℚ) (d1 d2 d3 m i a b : Nat)
    (env : Env) (sqrt4pi : ℚ) (nframe : String)
    (A B C A2 B2 C2 D V1 V2 V3 W1 W2 W3 : List ℚ)
    (hm : 1 ≤ m) (hi : i < d1 - 2 * m) (ha : a < d3 - 2 * m) (hb : b < d2 - 2 * m)
    (h1 : env "z_x1ap" = some A) (h2 : env "z_x2ap" = some B) (h3 : env "z_x3ap" = some C)
    (h4 : env "z_x1bp" = some A2) (h5 : env "z_x2bp" = some B2) (h6 : env "z_x3bp" = some C2)
    (h7 : env ("o_d__" ++ nframe) = some D)
    (h8 : env ("o_v1_" ++ nframe) = some V1) (h9 : env ("o_v2_" ++ nframe) = some V2)
    (h10 : env ("o_v3_" ++ nframe) = some V3)
    (h11 : env ("o_b1_" ++ nframe) = some W1) (h12 : env ("o_b2_" ++ nframe) = some W2)
    (h13 : env ("o_b3_" ++ nframe) = some W3) :
    (readDataCore data (some (d1, d2, d3)) (some m)).length
        = (d1 - 2 * m) * (d2 - 2 * m) * (d3 - 2 * m) ∧
    (readDataCore data (some (d1, d2, d3)) (some m)).getD
        (i * ((d3 - 2 * m) * (d2 - 2 * m)) + a * (d2 - 2 * m) + b) 0
      = data.getD (m + i + d1 * (m + b) + d1 * d2 * (m + a)) 0 ∧
    ∃ p, loadAndPreprocess env sqrt4pi nframe = .ok p ∧
      p.rho = readDataCore D (some (p.r_e.length + 2 * nghost,
        p.ph_e.length + 2 * nghost, p.th_e.length + 2 * nghost)) (some nghost) ∧
      p.Vr = (readDataCore V1 (some (p.r_e.length + 2 * nghost,
        p.ph_e.length + 2 * nghost, p.th_e.length + 2 * nghost)) (some nghost)).map
        (fun v => if v ≠ 0 then v else minvel) ∧
      p.Vph = (readDataCore V2 (some (p.r_e.length + 2 * nghost,
        p.ph_e.length + 2 * nghost, p.th_e.length + 2 * nghost)) (some nghost)).map
        (fun v => if v ≠ 0 then v else minvel) ∧
      p.Vth = (readDataCore V3 (some (p.r_e.length + 2 * nghost,
        p.ph_e.length + 2 * nghost, p.th_e.length + 2 * nghost)) (some nghost)).map
        (fun v => if v ≠ 0 then v else minvel) ∧
      p.Br = (readDataCore W1 (some (p.r_e.length + 2 * nghost,
        p.ph_e.length + 2 * nghost, p.th_e.length + 2 * nghost)) (some nghost)).map
        (fun x => x * sqrt4pi) ∧
      p.Bph = (readDataCore W2 (some (p.r_e.length + 2 * nghost,
        p.ph_e.length + 2 * nghost, p.th_e.length + 2 * nghost)) (some nghost)).map
        (fun x => x * sqrt4pi) ∧
      p.Bth = (readDataCore W3 (some (p.r_e.length + 2 * nghost,
        p.ph_e.length + 2 * nghost, p.th_e.length + 2 * nghost)) (some nghost)).map
        (fun x => x * sqrt4pi) := by
  refine ⟨readDataCore3_length data d1 d2 d3 m hm,
    readDataCore3_getD data d1 d2 d3 m i a b hm hi ha hb,
    preOf sqrt4pi A B C A2 B2 C2 D V1 V2 V3 W1 W2 W3,
    loadAndPreprocess_eq env sqrt4pi nframe A B C A2 B2 C2 D V1 V2 V3 W1 W2 W3
      h1 h2 h3 h4 h5 h6 h7 h8 h9 h10 h11 h12 h13,
    rfl, rfl, rfl, rfl, rfl, rfl, rfl⟩

/-- C2 at the end-to-end scenario input: padded shape `(10,10,10)`,
margin 3, corner element, and the pipeline shape fact. -/
theorem C2_reshape_trim_swap_witness :
    (readDataCore vol1000 (some (10, 10, 10)) (some 3)).length
        = (10 - 2 * 3) * (10 - 2 * 3) * (10 - 2 * 3) ∧
    ∃ p, loadAndPreprocess envE 1 "00001" = .ok p ∧
      p.rho = readDataCore vol1000 (some (p.r_e.length + 2 * nghost,
        p.ph_e.length + 2 * nghost, p.th_e.length + 2 * nghost)) (some nghost) := by
  obtain ⟨hlen, hgd, p, hp, hrho, _⟩ := C2_reshape_trim_swap vol1000 10 10 10 3 0 0 0
    envE 1 "00001" edges10 edges10 edges10 edges10 edges10 edges10 vol1000 vol1000
    vol1000 vol1000 vol1000 vol1000 vol1000
    (by decide) (by decide) (by decide) (by decide)
    rfl rfl rfl rfl rfl rfl rfl rfl rfl rfl rfl rfl rfl
  exact ⟨hlen, p, hp, hrho⟩

/-- The serialized items depend only on the edge arrays and the density:
the velocity and magnetic-field fields of `Pre` never reach the output. -/
theorem allItems_congr (p q : Pre) (x : List ℚ) (grid_format : String)
    (hre : p.r_e = q.r_e) (hth : p.th_e = q.th_e) (hph : p.ph_e = q.ph_e)
    (hrho : p.rho = q.rho) :
    allItems p x grid_format = allItems q x grid_format := by
  simp [allItems, geomItems, edgeSeqItems, cellItems, hre, hth, hph, hrho]

/-- C1, counterexample: in the end-to-end scenario (margin 3, ten source
edges `0..9` per axis), the emitted outer radius is source edge `7` —
`read_data('z_x1ap')[-3]`, one ghost edge beyond the de-ghosted range —
not the last source edge `9` the claim requires; the emitted inner
radius is source edge `3`, the first de-ghosted edge. -/
theorem C1_cex_outer_radius :
    ((zeus2polaris envE 1 "00001" "out" "ascii").1.getD 6 Event.closeF
      = Event.wr (WItem.dbl 7 true)) ∧
    edges10.getD (edges10.length - 1) 0 = 9 ∧
    ((7 : ℚ) ≠ 9) ∧
    ((zeus2polaris envE 1 "00001" "out" "ascii").1.getD 5 Event.closeF
      = Event.wr (WItem.dbl 3 false)) :=
  ⟨rfl, rfl, by norm_num, rfl⟩

/-- C1 (amended): the geometry record's inner radius is `r_e[0]`, the
first de-ghosted r-edge (source index `nghost`, with no offset), and its
outer radius is the still-ghosted source edge at index
`length - nghost` — one ghost edge outward of the last de-ghosted edge
(the de-ghosted edges occupy source indices `nghost` through
`nghost + (length - 2*nghost) - 1`).  In the end-to-end scenario with
ten source edges these are the edges at source indices 3 and 7, the
latter not being the last source edge. -/
theorem C1_geometry_radii (env : Env) (sqrt4pi : ℚ)
    (nframe output_grid grid_format : String)
    (A B C A2 B2 C2 D V1 V2 V3 W1 W2 W3 : List ℚ)
    (hfmt : grid_format = "binary" ∨ grid_format = "ascii") (hA : 7 ≤ A.length)
    (h1 : env "z_x1ap" = some A) (h2 : env "z_x2ap" = some B) (h3 : env "z_x3ap" = some C)
    (h4 : env "z_x1bp" = some A2) (h5 : env "z_x2bp" = some B2) (h6 : env "z_x3bp" = some C2)
    (h7 : env ("o_d__" ++ nframe) = some D)
    (h8 : env ("o_v1_" ++ nframe) = some V1) (h9 : env ("o_v2_" ++ nframe) = some V2)
    (h10 : env ("o_v3_" ++ nframe) = some V3)
    (h11 : env ("o_b1_" ++ nframe) = some W1) (h12 : env ("o_b2_" ++ nframe) = some W2)
    (h13 : env ("o_b3_" ++ nframe) = some W3) :
    (∃ rest, (zeus2polaris env sqrt4pi nframe output_grid grid_format).1 =
      Event.openF (output_grid ++ if grid_format = "binary" then ".dat" else ".txt") ::
      Event.wr (WItem.ushort 30 true) :: Event.wr (WItem.ushort 2 true) ::
      Event.wr (WItem.ushort 28 true) :: Event.wr (WItem.ushort 29 true) ::
      Event.wr (WItem.dbl (A.getD nghost 0) false) ::
      Event.wr (WItem.dbl (A.getD (A.length - nghost) 0) true) :: rest) ∧
    (sliceTrim A nghost).getD 0 0 = A.getD nghost 0 ∧
    A.length - nghost = nghost + (A.length - 2 * nghost) := by
  have hz := zeus2polaris_eq env sqrt4pi nframe output_grid grid_format A B C A2 B2 C2 D
    V1 V2 V3 W1 W2 W3 hfmt h1 h2 h3 h4 h5 h6 h7 h8 h9 h10 h11 h12 h13
  have hin : (sliceTrim A nghost).getD 0 0 = A.getD nghost 0 := by
    have h0 : (0 : Nat) < A.length - 2 * 3 := by omega
    simpa [nghost] using sliceTrim_getD A 3 0 (by norm_num) h0
  refine ⟨⟨(List.map Event.wr (
      [WItem.ushort (sliceTrim A nghost).length false,
       WItem.ushort (sliceTrim C nghost).length false,
       WItem.ushort (sliceTrim B nghost).length true,
       WItem.dbl 0 true, WItem.dbl 0 true, WItem.dbl 0 true] ++
      edgeSeqItems (sliceTrim A nghost) grid_format ++
      edgeSeqItems (sliceTrim C nghost) grid_format ++
      edgeSeqItems (sliceTrim B nghost) grid_format ++
      cellItems (readDataCore D (some (paddedShape A B C)) (some nghost))
        ((sliceTrim A nghost).length * (sliceTrim B nghost).length *
          (sliceTrim C nghost).length) ++
      [WItem.dbl 0 false, WItem.dbl 0 true])) ++ [Event.closeF], ?_⟩,
    hin, by simp [nghost]; omega⟩
  rw [hz]
  simp [allItems, headerItems, geomItems, preOf, IDs, id_grid, hin,
    List.map_append, List.append_assoc]
  simpa [List.getD] using hin

/-- C1 amended theorem at the end-to-end scenario input. -/
theorem C1_geometry_radii_witness :
    (∃ rest, (zeus2polaris envE 1 "00001" "out" "ascii").1 =
      Event.openF ("out" ++ if "ascii" = "binary" then ".dat" else ".txt") ::
      Event.wr (WItem.ushort 30 true) :: Event.wr (WItem.ushort 2 true) ::
      Event.wr (WItem.ushort 28 true) :: Event.wr (WItem.ushort 29 true) ::
      Event.wr (WItem.dbl (edges10.getD nghost 0) false) ::
      Event.wr (WItem.dbl (edges10.getD (edges10.length - nghost) 0) true) :: rest) ∧
    (sliceTrim edges10 nghost).getD 0 0 = edges10.getD nghost 0 ∧
    edges10.length - nghost = nghost + (edges10.length - 2 * nghost) :=
  C1_geometry_radii envE 1 "00001" "out" "ascii"
    edges10 edges10 edges10 edges10 edges10 edges10 vol1000 vol1000 vol1000 vol1000
    vol1000 vol1000 vol1000 (Or.inr rfl) (by decide)
    rfl rfl rfl rfl rfl rfl rfl rfl rfl rfl rfl rfl rfl

/-- The per-cell payload of a run over `n` cells holds `2 * n` scalars. -/
theorem length_payload (rho : List ℚ) (n : Nat) :
    ((List.range n).flatMap fun cell =>
      [Event.wr (WItem.dbl (rho.getD cell 0) false),
       Event.wr (WItem.dbl (0.01 * rho.getD cell 0) true)]).length = 2 * n := by
  induction n with
  | zero => simp
  | succ k ih =>
      rw [List.range_succ, List.flatMap_append, List.length_append, ih]
      simp
      omega

/-- The de-ghosted density volume has one value per grid cell: its
length is the product of the three de-ghosted edge-array lengths. -/
theorem rho_length (A B C D : List ℚ) :
    (readDataCore D (some (paddedShape A B C)) (some nghost)).length
      = (sliceTrim A nghost).length * (sliceTrim B nghost).length *
        (sliceTrim C nghost).length := by
  have h := readDataCore3_length D ((sliceTrim A nghost).length + 2 * nghost)
    ((sliceTrim C nghost).length + 2 * nghost) ((sliceTrim B nghost).length + 2 * nghost)
    nghost (by norm_num [nghost])
  simp only [paddedShape]
  rw [h]
  simp [nghost]
  ring

/-- C3: after the edge sequences the serializer writes one record per
cell for `n_r * n_th * n_ph` cells — the counts being the lengths of the
de-ghosted edge arrays — each record holding one scalar per requested
quantity ID, then exactly one all-zero sentinel record, then closes the
file; the de-ghosted density provides exactly one value per cell. -/
theorem C3_cell_records (env : Env) (sqrt4pi : ℚ)
    (nframe output_grid grid_format : String)
    (A B C A2 B2 C2 D V1 V2 V3 W1 W2 W3 : List ℚ)
    (hfmt : grid_format = "binary" ∨ grid_format = "ascii")
    (h1 : env "z_x1ap" = some A) (h2 : env "z_x2ap" = some B) (h3 : env "z_x3ap" = some C)
    (h4 : env "z_x1bp" = some A2) (h5 : env "z_x2bp" = some B2) (h6 : env "z_x3bp" = some C2)
    (h7 : env ("o_d__" ++ nframe) = some D)
    (h8 : env ("o_v1_" ++ nframe) = some V1) (h9 : env ("o_v2_" ++ nframe) = some V2)
    (h10 : env ("o_v3_" ++ nframe) = some V3)
    (h11 : env ("o_b1_" ++ nframe) = some W1) (h12 : env ("o_b2_" ++ nframe) = some W2)
    (h13 : env ("o_b3_" ++ nframe) = some W3) :
    ∃ p pre, loadAndPreprocess env sqrt4pi nframe = .ok p ∧
      (zeus2polaris env sqrt4pi nframe output_grid grid_format).1 =
        Event.openF (output_grid ++ if grid_format = "binary" then ".dat" else ".txt") ::
          pre ++
          ((List.range (p.r_e.length * p.th_e.length * p.ph_e.length)).flatMap fun cell =>
            [Event.wr (WItem.dbl (p.rho.getD cell 0) false),
             Event.wr (WItem.dbl (0.01 * p.rho.getD cell 0) true)]) ++
          [Event.wr (WItem.dbl 0 false), Event.wr (WItem.dbl 0 true), Event.closeF] ∧
      p.rho.length = p.r_e.length * p.th_e.length * p.ph_e.length ∧
      ((List.range (p.r_e.length * p.th_e.length * p.ph_e.length)).flatMap fun cell =>
        [Event.wr (WItem.dbl (p.rho.getD cell 0) false),
         Event.wr (WItem.dbl (0.01 * p.rho.getD cell 0) true)]).length
        = 2 * (p.r_e.length * p.th_e.length * p.ph_e.length) ∧
      IDs.length = 2 := by
  have hz := zeus2polaris_eq env sqrt4pi nframe output_grid grid_format A B C A2 B2 C2 D
    V1 V2 V3 W1 W2 W3 hfmt h1 h2 h3 h4 h5 h6 h7 h8 h9 h10 h11 h12 h13
  have hl := loadAndPreprocess_eq env sqrt4pi nframe A B C A2 B2 C2 D V1 V2 V3 W1 W2 W3
    h1 h2 h3 h4 h5 h6 h7 h8 h9 h10 h11 h12 h13
  refine ⟨preOf sqrt4pi A B C A2 B2 C2 D V1 V2 V3 W1 W2 W3,
    List.map Event.wr (headerItems ++
      geomItems (preOf sqrt4pi A B C A2 B2 C2 D V1 V2 V3 W1 W2 W3) A ++
      edgeSeqItems (preOf sqrt4pi A B C A2 B2 C2 D V1 V2 V3 W1 W2 W3).r_e grid_format ++
      edgeSeqItems (preOf sqrt4pi A B C A2 B2 C2 D V1 V2 V3 W1 W2 W3).ph_e grid_format ++
      edgeSeqItems (preOf sqrt4pi A B C A2 B2 C2 D V1 V2 V3 W1 W2 W3).th_e grid_format),
    hl, ?_, rho_length A B C D, length_payload _ _, rfl⟩
  rw [hz]
  simp [allItems, cellItems, List.map_append, List.map_flatMap, List.append_assoc]

/-- C3 at the end-to-end scenario input: `4 * 4 * 4` cell records. -/
theorem C3_cell_records_witness :
    ∃ p pre, loadAndPreprocess envE 1 "00001" = .ok p ∧
      (zeus2polaris envE 1 "00001" "out" "ascii").1 =
        Event.openF ("out" ++ if "ascii" = "binary" then ".dat" else ".txt") ::
          pre ++
          ((List.range (p.r_e.length * p.th_e.length * p.ph_e.length)).flatMap fun cell =>
            [Event.wr (WItem.dbl (p.rho.getD cell 0) false),
             Event.wr (WItem.dbl (0.01 * p.rho.getD cell 0) true)]) ++
          [Event.wr (WItem.dbl 0 false), Event.wr (WItem.dbl 0 true), Event.closeF] ∧
      p.rho.length = p.r_e.length * p.th_e.length * p.ph_e.length ∧
      ((List.range (p.r_e.length * p.th_e.length * p.ph_e.length)).flatMap fun cell =>
        [Event.wr (WItem.dbl (p.rho.getD cell 0) false),
         Event.wr (WItem.dbl (0.01 * p.rho.getD cell 0) true)]).length
        = 2 * (p.r_e.length * p.th_e.length * p.ph_e.length) ∧
      IDs.length = 2 :=
  C3_cell_records envE 1 "00001" "out" "ascii"
    edges10 edges10 edges10 edges10 edges10 edges10 vol1000 vol1000 vol1000 vol1000
    vol1000 vol1000 vol1000 (Or.inr rfl)
    rfl rfl rfl rfl rfl rfl rfl rfl rfl rfl rfl rfl rfl

/-- C4 (implicit): each cell record carries exactly the preprocessed gas
density `rho[cell]` and `0.01 * rho[cell]` — the dust mass density is
derived as one hundredth of the gas mass density, not loaded — and
replacing the contents of all six velocity and magnetic-field files
(keeping them readable) leaves the entire output unchanged. -/
theorem C4_density_only (env env2 : Env) (sqrt4pi : ℚ)
    (nframe output_grid grid_format : String)
    (A B C A2 B2 C2 D V1 V2 V3 W1 W2 W3 U1 U2 U3 X1 X2 X3 : List ℚ)
    (hfmt : grid_format = "binary" ∨ grid_format = "ascii")
    (h1 : env "z_x1ap" = some A) (h2 : env "z_x2ap" = some B) (h3 : env "z_x3ap" = some C)
    (h4 : env "z_x1bp" = some A2) (h5 : env "z_x2bp" = some B2) (h6 : env "z_x3bp" = some C2)
    (h7 : env ("o_d__" ++ nframe) = some D)
    (h8 : env ("o_v1_" ++ nframe) = some V1) (h9 : env ("o_v2_" ++ nframe) = some V2)
    (h10 : env ("o_v3_" ++ nframe) = some V3)
    (h11 : env ("o_b1_" ++ nframe) = some W1) (h12 : env ("o_b2_" ++ nframe) = some W2)
    (h13 : env ("o_b3_" ++ nframe) = some W3)
    (k1 : env2 "z_x1ap" = some A) (k2 : env2 "z_x2ap" = some B) (k3 : env2 "z_x3ap" = some C)
    (k4 : env2 "z_x1bp" = some A2) (k5 : env2 "z_x2bp" = some B2) (k6 : env2 "z_x3bp" = some C2)
    (k7 : env2 ("o_d__" ++ nframe) = some D)
    (k8 : env2 ("o_v1_" ++ nframe) = some U1) (k9 : env2 ("o_v2_" ++ nframe) = some U2)
    (k10 : env2 ("o_v3_" ++ nframe) = some U3)
    (k11 : env2 ("o_b1_" ++ nframe) = some X1) (k12 : env2 ("o_b2_" ++ nframe) = some X2)
    (k13 : env2 ("o_b3_" ++ nframe) = some X3) :
    (∃ p pre, loadAndPreprocess env sqrt4pi nframe = .ok p ∧
      (zeus2polaris env sqrt4pi nframe output_grid grid_format).1 =
        Event.openF (output_grid ++ if grid_format = "binary" then ".dat" else ".txt") ::
          pre ++
          ((List.range (p.r_e.length * p.th_e.length * p.ph_e.length)).flatMap fun cell =>
            [Event.wr (WItem.dbl (p.rho.getD cell 0) false),
             Event.wr (WItem.dbl (0.01 * p.rho.getD cell 0) true)]) ++
          [Event.wr (WItem.dbl 0 false), Event.wr (WItem.dbl 0 true), Event.closeF]) ∧
    zeus2polaris env2 sqrt4pi nframe output_grid grid_format =
      zeus2polaris env sqrt4pi nframe output_grid grid_format := by
  have hz := zeus2polaris_eq env sqrt4pi nframe output_grid grid_format A B C A2 B2 C2 D
    V1 V2 V3 W1 W2 W3 hfmt h1 h2 h3 h4 h5 h6 h7 h8 h9 h10 h11 h12 h13
  have hz2 := zeus2polaris_eq env2 sqrt4pi nframe output_grid grid_format A B C A2 B2 C2 D
    U1 U2 U3 X1 X2 X3 hfmt k1 k2 k3 k4 k5 k6 k7 k8 k9 k10 k11 k12 k13
  have hl := loadAndPreprocess_eq env sqrt4pi nframe A B C A2 B2 C2 D V1 V2 V3 W1 W2 W3
    h1 h2 h3 h4 h5 h6 h7 h8 h9 h10 h11 h12 h13
  constructor
  · refine ⟨preOf sqrt4pi A B C A2 B2 C2 D V1 V2 V3 W1 W2 W3,
      List.map Event.wr (headerItems ++
        geomItems (preOf sqrt4pi A B C A2 B2 C2 D V1 V2 V3 W1 W2 W3) A ++
        edgeSeqItems (preOf sqrt4pi A B C A2 B2 C2 D V1 V2 V3 W1 W2 W3).r_e grid_format ++
        edgeSeqItems (preOf sqrt4pi A B C A2 B2 C2 D V1 V2 V3 W1 W2 W3).ph_e grid_format ++
        edgeSeqItems (preOf sqrt4pi A B C A2 B2 C2 D V1 V2 V3 W1 W2 W3).th_e grid_format),
      hl, ?_⟩
    rw [hz]
    simp [allItems, cellItems, List.map_append, List.map_flatMap, List.append_assoc]
  · rw [hz, hz2,
      allItems_congr (preOf sqrt4pi A B C A2 B2 C2 D U1 U2 U3 X1 X2 X3)
        (preOf sqrt4pi A B C A2 B2 C2 D V1 V2 V3 W1 W2 W3) A grid_format rfl rfl rfl rfl]

/-- C4 at the end-to-end scenario: varying every velocity and
magnetic-field file leaves the output identical. -/
theorem C4_density_only_witness :
    zeus2polaris envE2 1 "00001" "out" "ascii" =
      zeus2polaris envE 1 "00001" "out" "ascii" :=
  (C4_density_only envE envE2 1 "00001" "out" "ascii"
    edges10 edges10 edges10 edges10 edges10 edges10 vol1000 vol1000 vol1000 vol1000
    vol1000 vol1000 vol1000 vol1000b vol1000b vol1000b vol1000b vol1000b vol1000b
    (Or.inr rfl)
    rfl rfl rfl rfl rfl rfl rfl rfl rfl rfl rfl rfl rfl
    rfl rfl rfl rfl rfl rfl rfl rfl rfl rfl rfl rfl rfl).2

/-- C5: the serializer first writes the fixed grid-type identifier, then
the count of quantity IDs, then each ID, all with the 2-byte unsigned
short dtype; with the built-in constants the header is the sequence
`30, 2, 28, 29`.  In binary mode such a field is the two bytes of
`struct.pack("H", n)`; in ascii mode it is the decimal token `str(n)`
followed by a newline. -/
theorem C5_header (env : Env) (sqrt4pi : ℚ)
    (nframe output_grid grid_format : String)
    (A B C A2 B2 C2 D V1 V2 V3 W1 W2 W3 : List ℚ)
    (hfmt : grid_format = "binary" ∨ grid_format = "ascii")
    (h1 : env "z_x1ap" = some A) (h2 : env "z_x2ap" = some B) (h3 : env "z_x3ap" = some C)
    (h4 : env "z_x1bp" = some A2) (h5 : env "z_x2bp" = some B2) (h6 : env "z_x3bp" = some C2)
    (h7 : env ("o_d__" ++ nframe) = some D)
    (h8 : env ("o_v1_" ++ nframe) = some V1) (h9 : env ("o_v2_" ++ nframe) = some V2)
    (h10 : env ("o_v3_" ++ nframe) = some V3)
    (h11 : env ("o_b1_" ++ nframe) = some W1) (h12 : env ("o_b2_" ++ nframe) = some W2)
    (h13 : env ("o_b3_" ++ nframe) = some W3) :
    (∃ rest, (zeus2polaris env sqrt4pi nframe output_grid grid_format).1 =
      Event.openF (output_grid ++ if grid_format = "binary" then ".dat" else ".txt") ::
      Event.wr (WItem.ushort id_grid true) :: Event.wr (WItem.ushort IDs.length true) ::
      Event.wr (WItem.ushort 28 true) :: Event.wr (WItem.ushort 29 true) :: rest) ∧
    id_grid :: IDs.length :: IDs = [30, 2, 28, 29] ∧
    [30, 2, 28, 29].map packH = [[30, 0], [2, 0], [28, 0], [29, 0]] ∧
    [30, 2, 28, 29].map (fun n => asciiTok (toString n) true)
      = ["30\n", "2\n", "28\n", "29\n"] ∧
    (∀ n, n < 65536 → (packH n).length = 2 ∧
      (packH n).getD 0 0 + 256 * (packH n).getD 1 0 = n) := by
  have hz := zeus2polaris_eq env sqrt4pi nframe output_grid grid_format A B C A2 B2 C2 D
    V1 V2 V3 W1 W2 W3 hfmt h1 h2 h3 h4 h5 h6 h7 h8 h9 h10 h11 h12 h13
  refine ⟨⟨List.map Event.wr (
      geomItems (preOf sqrt4pi A B C A2 B2 C2 D V1 V2 V3 W1 W2 W3) A ++
      edgeSeqItems (preOf sqrt4pi A B C A2 B2 C2 D V1 V2 V3 W1 W2 W3).r_e grid_format ++
      edgeSeqItems (preOf sqrt4pi A B C A2 B2 C2 D V1 V2 V3 W1 W2 W3).ph_e grid_format ++
      edgeSeqItems (preOf sqrt4pi A B C A2 B2 C2 D V1 V2 V3 W1 W2 W3).th_e grid_format ++
      cellItems (preOf sqrt4pi A B C A2 B2 C2 D V1 V2 V3 W1 W2 W3).rho
        ((preOf sqrt4pi A B C A2 B2 C2 D V1 V2 V3 W1 W2 W3).r_e.length *
         (preOf sqrt4pi A B C A2 B2 C2 D V1 V2 V3 W1 W2 W3).th_e.length *
         (preOf sqrt4pi A B C A2 B2 C2 D V1 V2 V3 W1 W2 W3).ph_e.length) ++
      [WItem.dbl 0 false, WItem.dbl 0 true]) ++ [Event.closeF], ?_⟩,
    rfl, by decide, by decide, ?_⟩
  · rw [hz]
    simp [allItems, headerItems, IDs, id_grid, List.map_append, List.append_assoc]
  · intro n hn
    exact ⟨rfl, by simp only [packH, List.getD_cons_zero, List.getD_cons_succ]; omega⟩

/-- C5 at the end-to-end scenario input: the header field values. -/
theorem C5_header_witness :
    (∃ rest, (zeus2polaris envE 1 "00001" "out" "ascii").1 =
      Event.openF ("out" ++ if "ascii" = "binary" then ".dat" else ".txt") ::
      Event.wr (WItem.ushort id_grid true) :: Event.wr (WItem.ushort IDs.length true) ::
      Event.wr (WItem.ushort 28 true) :: Event.wr (WItem.ushort 29 true) :: rest) ∧
    id_grid :: IDs.length :: IDs = [30, 2, 28, 29] :=
  ⟨(C5_header envE 1 "00001" "out" "ascii"
      edges10 edges10 edges10 edges10 edges10 edges10 vol1000 vol1000 vol1000 vol1000
      vol1000 vol1000 vol1000 (Or.inr rfl)
      rfl rfl rfl rfl rfl rfl rfl rfl rfl rfl rfl rfl rfl).1,
   (C5_header envE 1 "00001" "out" "ascii"
      edges10 edges10 edges10 edges10 edges10 edges10 vol1000 vol1000 vol1000 vol1000
      vol1000 vol1000 vol1000 (Or.inr rfl)
      rfl rfl rfl rfl rfl rfl rfl rfl rfl rfl rfl rfl rfl).2.1⟩

end Zeus2Polaris
